import Mathlib

/-!
# The SDL2 controller adapter of sm64plus (`src/pc/controller/controller_sdl2.c`)

A shallow embedding of the adapter: its process-wide state, the answers of the
SDL library during one call, and the four entry points of `controller_sdl`,
followed by theorems about the pad record a poll produces and about the device
and haptic handles.

Conventions of the embedding.
* C `int` values are `Int`; `int16_t` readings are `Int` in `-32768 .. 32767`.
* `unsigned int` / `uint32_t` arithmetic is `Nat` arithmetic reduced `% 2^32`.
* `pad->button` is a 16-bit field: every store into it is reduced `% 65536`.
* The stick fields are signed 8-bit: every store into them goes through `wrapS8`.
* Pointers are `Option Nat`, `none` being `NULL`.
* Headers that are not part of this file (`game/settings.h`, `ultra64.h`) are
  taken as parameters: `Settings` holds the variables of the settings module,
  `ContFlags` the button constants of the console header.
-/

namespace ControllerSDL2

/-! ## Machine arithmetic -/

/-- C integer division `a / b` on `int`: the quotient truncated toward zero. -/
def cdiv (a b : Int) : Int := Int.tdiv a b

/-- The conversion `(uint32_t)v` of an `int`. -/
def toU32 (v : Int) : Nat := (v % 4294967296).toNat

/-- A store into a signed 8-bit field. -/
def wrapS8 (v : Int) : Int := (v + 128) % 256 - 128

/-- The expansion of `DEADZONE_LEFT * DEADZONE_LEFT` (and of the right one):
`d * 10 * d * 10`, evaluated left to right in `unsigned int`, then converted to
`uint32_t`. -/
def deadzoneProduct (d : Nat) : Nat :=
  ((((d * 10) % 4294967296) * d) % 4294967296 * 10) % 4294967296

/-! ## Parameters coming from other headers -/

/-- The variables of `game/settings.h` read by the adapter. The button flags and
the deadzones are unsigned 32-bit values; the two camera toggles are tested for
being non-zero and appear here as booleans. -/
structure Settings where
  configButtonStart : Nat
  configButtonSelect : Nat
  configButtonL : Nat
  configButtonR : Nat
  configButtonA : Nat
  configButtonB : Nat
  configButtonX : Nat
  configButtonY : Nat
  configButtonThumbLeft : Nat
  configButtonThumbRight : Nat
  configButtonZL : Nat
  configButtonZR : Nat
  gControllerLeftDeadzone : Nat
  gControllerRightDeadzone : Nat
  gImprovedCamera : Bool
  gVerticalCamera : Bool

/-- The button constants of `ultra64.h` used by the adapter. Their values are
not fixed here: every statement below holds for any assignment of them. -/
structure ContFlags where
  U_JPAD : Nat
  D_JPAD : Nat
  L_JPAD : Nat
  R_JPAD : Nat
  U_CBUTTONS : Nat
  D_CBUTTONS : Nat
  L_CBUTTONS : Nat
  R_CBUTTONS : Nat

/-! ## Data model -/

/-- The pad record filled by a poll (`OSContPad`). -/
structure OSContPad where
  button : Nat
  stick_x : Int
  stick_y : Int
  stick2_x : Int
  stick2_y : Int
  deriving DecidableEq

/-- The file-level variables of the adapter. -/
structure AdapterState where
  init_ok : Bool
  sdl_cntrl : Option Nat
  haptics_enabled : Bool
  sdl_haptic : Option Nat
  deriving DecidableEq

/-- The state before any call: statics are zero-initialised. -/
def initialState : AdapterState :=
  { init_ok := false, sdl_cntrl := none, haptics_enabled := false, sdl_haptic := none }

/-- The buttons queried with `SDL_GameControllerGetButton`. -/
inductive SDL_GameControllerButton where
  | START | BACK | LEFTSHOULDER | RIGHTSHOULDER | A | B | X | Y
  | LEFTSTICK | RIGHTSTICK | DPAD_UP | DPAD_DOWN | DPAD_LEFT | DPAD_RIGHT
  deriving DecidableEq

/-- The axes queried with `SDL_GameControllerGetAxis`. -/
inductive SDL_GameControllerAxis where
  | LEFTX | LEFTY | RIGHTX | RIGHTY | TRIGGERLEFT | TRIGGERRIGHT
  deriving DecidableEq

/-- What the SDL library answers during one call of the adapter. Joystick
indices and handles are numbers; nothing is assumed about the answers. -/
structure Host where
  /-- The result of `SDL_GameControllerGetAttached` on a handle. -/
  getAttached : Nat → Bool
  /-- The result of `SDL_NumJoysticks` (negative on error). -/
  numJoysticks : Int
  /-- The result of `SDL_IsGameController` on an index. -/
  isGameController : Nat → Bool
  /-- The result of `SDL_GameControllerOpen` on an index. -/
  gameControllerOpen : Nat → Option Nat
  /-- The result of `SDL_HapticOpen` on an index. -/
  hapticOpen : Nat → Option Nat
  /-- Whether `SDL_HapticRumbleSupported` answers `SDL_TRUE` on a handle. -/
  hapticRumbleSupported : Nat → Bool
  /-- The result of `SDL_HapticRumbleInit` on a handle. -/
  hapticRumbleInit : Nat → Int
  /-- Whether `SDL_GameControllerGetButton` answers non-zero. -/
  getButton : Nat → SDL_GameControllerButton → Bool
  /-- The result of `SDL_GameControllerGetAxis`, a signed 16-bit value. -/
  getAxis : Nat → SDL_GameControllerAxis → Int

/-! ## The entry points -/

/-- `controller_sdl_init`: `sdlInit` is the result of
`SDL_Init(SDL_INIT_GAMECONTROLLER)`, `hapticInit` the result of
`SDL_InitSubSystem(SDL_INIT_HAPTIC)`. -/
def controller_sdl_init (sdlInit hapticInit : Int) (s : AdapterState) : AdapterState :=
  if sdlInit ≠ 0 then s
  else { s with haptics_enabled := decide (hapticInit = 0), init_ok := true }

/-- `controller_sdl_init_haptics(joy)`. -/
def controller_sdl_init_haptics (h : Host) (s : AdapterState) (joy : Nat) : Option Nat :=
  if !s.haptics_enabled then none
  else
    match h.hapticOpen joy with
    | none => none
    | some hap =>
      if !h.hapticRumbleSupported hap then none
      else if h.hapticRumbleInit hap ≠ 0 then none
      else some hap

/-- The detachment test of `controller_sdl_read` (lines 66-71). -/
def releaseDetached (h : Host) (s : AdapterState) : AdapterState :=
  match s.sdl_cntrl with
  | some c =>
    if !h.getAttached c then { s with sdl_cntrl := none, sdl_haptic := none } else s
  | none => s

/-- The search loop of `controller_sdl_read` (lines 74-82) from index `i`, with
`n` iterations left before `i` reaches `SDL_NumJoysticks()`, whose answer does
not change during the loop. -/
def searchFrom (h : Host) (s : AdapterState) : Nat → Nat → AdapterState
  | 0, _ => s
  | n + 1, i =>
    if h.isGameController i then
      let s1 := { s with sdl_cntrl := h.gameControllerOpen i }
      if s1.sdl_cntrl ≠ none then
        { s1 with sdl_haptic := controller_sdl_init_haptics h s1 i }
      else searchFrom h s1 n (i + 1)
    else searchFrom h s n (i + 1)

/-- Lines 66-82 of `controller_sdl_read`: release a detached device, then
search for one when none is bound. -/
def bindDevice (h : Host) (s : AdapterState) : AdapterState :=
  let s1 := releaseDetached h s
  if s1.sdl_cntrl = none then searchFrom h s1 h.numJoysticks.toNat 0 else s1

/-- The statement `if (pressed) pad->button |= flag;`. -/
def orButton (pad : OSContPad) (pressed : Bool) (flag : Nat) : OSContPad :=
  if pressed then { pad with button := (pad.button ||| flag) % 65536 } else pad

/-- The `TARGET_WEB` correction of a Y-axis reading (lines 112-124); `web`
tells whether the block is compiled in. -/
def fixY (web : Bool) (y : Int) : Int :=
  if web && decide (y = -32768) then 32767 else y

/-- Lines 88-157 of `controller_sdl_read`: the mapping of the readings of the
bound device `c` into the pad record. -/
def mapInputs (web : Bool) (k : ContFlags) (cfg : Settings) (h : Host) (c : Nat)
    (pad : OSContPad) : OSContPad :=
  let pad := orButton pad (h.getButton c .START) cfg.configButtonStart
  let pad := orButton pad (h.getButton c .BACK) cfg.configButtonSelect
  let pad := orButton pad (h.getButton c .LEFTSHOULDER) cfg.configButtonL
  let pad := orButton pad (h.getButton c .RIGHTSHOULDER) cfg.configButtonR
  let pad := orButton pad (h.getButton c .A) cfg.configButtonA
  let pad := orButton pad (h.getButton c .B) cfg.configButtonB
  let pad := orButton pad (h.getButton c .X) cfg.configButtonX
  let pad := orButton pad (h.getButton c .Y) cfg.configButtonY
  let pad := orButton pad (h.getButton c .LEFTSTICK) cfg.configButtonThumbLeft
  let pad := orButton pad (h.getButton c .RIGHTSTICK) cfg.configButtonThumbRight
  let pad := orButton pad (h.getButton c .DPAD_UP) k.U_JPAD
  let pad := orButton pad (h.getButton c .DPAD_DOWN) k.D_JPAD
  let pad := orButton pad (h.getButton c .DPAD_LEFT) k.L_JPAD
  let pad := orButton pad (h.getButton c .DPAD_RIGHT) k.R_JPAD
  let leftx := h.getAxis c .LEFTX
  let lefty := fixY web (h.getAxis c .LEFTY)
  let rightx := h.getAxis c .RIGHTX
  let righty := fixY web (h.getAxis c .RIGHTY)
  let ltrig := h.getAxis c .TRIGGERLEFT
  let rtrig := h.getAxis c .TRIGGERRIGHT
  let pad :=
    if cfg.gImprovedCamera then
      let magnitude_sq2 := toU32 (rightx * rightx)
      if magnitude_sq2 > deadzoneProduct cfg.gControllerRightDeadzone then
        { pad with stick2_x := wrapS8 (cdiv rightx 409) }
      else pad
    else
      let pad := orButton pad (decide (rightx < -0x4000)) k.L_CBUTTONS
      orButton pad (decide (rightx > 0x4000)) k.R_CBUTTONS
  let pad :=
    if cfg.gVerticalCamera then
      let magnitude_sq2 := toU32 (righty * righty)
      if magnitude_sq2 > deadzoneProduct cfg.gControllerRightDeadzone then
        { pad with stick2_y := wrapS8 (cdiv righty 409) }
      else pad
    else
      let pad := orButton pad (decide (righty < -0x4000)) k.U_CBUTTONS
      orButton pad (decide (righty > 0x4000)) k.D_CBUTTONS
  let pad := orButton pad (decide (ltrig > 30 * 256)) cfg.configButtonZL
  let pad := orButton pad (decide (rtrig > 30 * 256)) cfg.configButtonZR
  let magnitude_sq := (toU32 (leftx * leftx) + toU32 (lefty * lefty)) % 4294967296
  if magnitude_sq > deadzoneProduct cfg.gControllerLeftDeadzone then
    { pad with stick_x := wrapS8 (cdiv leftx 409), stick_y := wrapS8 (cdiv (-lefty) 409) }
  else pad

/-- `controller_sdl_read(pad)`: the adapter state and the pad record after the
poll. -/
def controller_sdl_read (web : Bool) (k : ContFlags) (cfg : Settings) (h : Host)
    (s : AdapterState) (pad : OSContPad) : AdapterState × OSContPad :=
  if !s.init_ok then (s, pad)
  else
    let s1 := bindDevice h s
    match s1.sdl_cntrl with
    | none => (s1, pad)
    | some c => (s1, mapInputs web k cfg h c pad)

/-- `controller_sdl_rumble_play`: only the library is called, the adapter state
is not assigned. -/
def controller_sdl_rumble_play (s : AdapterState) : AdapterState := s

/-- `controller_sdl_rumble_stop`: only the library is called, the adapter state
is not assigned. -/
def controller_sdl_rumble_stop (s : AdapterState) : AdapterState := s

/-! ## The flags a poll contributes

The next definitions name, for the statements below, the flags that each group
of inputs ORs into the button mask. They are not part of the adapter; the
lemma `mapInputs_button_testBit` relates them to `mapInputs`. -/

/-- The flag contributed by one input: `flag` when it is active, nothing otherwise. -/
def flagIf (active : Bool) (flag : Nat) : Nat := if active then flag else 0

/-- The bitwise OR of the flags mapped to the buttons that device `c` reports
pressed. -/
def buttonFlags (k : ContFlags) (cfg : Settings) (h : Host) (c : Nat) : Nat :=
  flagIf (h.getButton c .START) cfg.configButtonStart
  ||| flagIf (h.getButton c .BACK) cfg.configButtonSelect
  ||| flagIf (h.getButton c .LEFTSHOULDER) cfg.configButtonL
  ||| flagIf (h.getButton c .RIGHTSHOULDER) cfg.configButtonR
  ||| flagIf (h.getButton c .A) cfg.configButtonA
  ||| flagIf (h.getButton c .B) cfg.configButtonB
  ||| flagIf (h.getButton c .X) cfg.configButtonX
  ||| flagIf (h.getButton c .Y) cfg.configButtonY
  ||| flagIf (h.getButton c .LEFTSTICK) cfg.configButtonThumbLeft
  ||| flagIf (h.getButton c .RIGHTSTICK) cfg.configButtonThumbRight
  ||| flagIf (h.getButton c .DPAD_UP) k.U_JPAD
  ||| flagIf (h.getButton c .DPAD_DOWN) k.D_JPAD
  ||| flagIf (h.getButton c .DPAD_LEFT) k.L_JPAD
  ||| flagIf (h.getButton c .DPAD_RIGHT) k.R_JPAD

/-- The digital flags of the right-stick X reading `rightx`. -/
def rightXFlags (k : ContFlags) (cfg : Settings) (rightx : Int) : Nat :=
  if cfg.gImprovedCamera then 0
  else flagIf (decide (rightx < -0x4000)) k.L_CBUTTONS
    ||| flagIf (decide (rightx > 0x4000)) k.R_CBUTTONS

/-- The digital flags of the (corrected) right-stick Y reading `righty`. -/
def rightYFlags (k : ContFlags) (cfg : Settings) (righty : Int) : Nat :=
  if cfg.gVerticalCamera then 0
  else flagIf (decide (righty < -0x4000)) k.U_CBUTTONS
    ||| flagIf (decide (righty > 0x4000)) k.D_CBUTTONS

/-- The flag of the left trigger reading. -/
def leftTriggerFlag (cfg : Settings) (ltrig : Int) : Nat :=
  flagIf (decide (ltrig > 30 * 256)) cfg.configButtonZL

/-- The flag of the right trigger reading. -/
def rightTriggerFlag (cfg : Settings) (rtrig : Int) : Nat :=
  flagIf (decide (rtrig > 30 * 256)) cfg.configButtonZR

/-! ## Sequences of calls -/

/-- One call of an entry point of `controller_sdl`, with what the library
answers during it and, for a poll, the build flag, the header parameters and
the pad record passed in. The arguments of `controller_sdl_rumble_play` do not
reach the adapter state and are left out. -/
inductive Call where
  | init (sdlInit hapticInit : Int)
  | read (web : Bool) (k : ContFlags) (cfg : Settings) (h : Host) (pad : OSContPad)
  | rumble_play
  | rumble_stop

/-- The adapter state after one call. -/
def step (s : AdapterState) : Call → AdapterState
  | .init sdlInit hapticInit => controller_sdl_init sdlInit hapticInit s
  | .read web k cfg h pad => (controller_sdl_read web k cfg h s pad).1
  | .rumble_play => controller_sdl_rumble_play s
  | .rumble_stop => controller_sdl_rumble_stop s

/-- The adapter state after a sequence of calls from the initial state. -/
def run (calls : List Call) : AdapterState := calls.foldl step initialState

/-! ## Inputs used in the statements and examples -/

/-- The library `h` with every reading of axis `a` replaced by `v`. -/
def withAxis (h : Host) (a : SDL_GameControllerAxis) (v : Int) : Host :=
  { h with getAxis := fun c b => if b = a then v else h.getAxis c b }

/-- A zeroed pad record. -/
def zeroPad : OSContPad :=
  { button := 0, stick_x := 0, stick_y := 0, stick2_x := 0, stick2_y := 0 }

/-- An assignment of the button constants, one bit each. -/
def sampleFlags : ContFlags :=
  { U_JPAD := 0x0800, D_JPAD := 0x0400, L_JPAD := 0x0200, R_JPAD := 0x0100,
    U_CBUTTONS := 0x0008, D_CBUTTONS := 0x0004, L_CBUTTONS := 0x0002, R_CBUTTONS := 0x0001 }

/-- Sample settings with the given deadzones and camera toggles. -/
def sampleSettings (left right : Nat) (improved vertical : Bool) : Settings :=
  { configButtonStart := 0x1000, configButtonSelect := 0x0020, configButtonL := 0x0020,
    configButtonR := 0x0010, configButtonA := 0x8000, configButtonB := 0x4000,
    configButtonX := 0x4000, configButtonY := 0x8000, configButtonThumbLeft := 0x2000,
    configButtonThumbRight := 0x0010, configButtonZL := 0x2000, configButtonZR := 0x0010,
    gControllerLeftDeadzone := left, gControllerRightDeadzone := right,
    gImprovedCamera := improved, gVerticalCamera := vertical }

/-- A library with one joystick, recognised as a game controller, that opens as
handle `7`, stays attached and supports rumble as haptic handle `9`; its buttons
and axes answer as given. -/
def sampleHost (buttons : SDL_GameControllerButton → Bool)
    (axes : SDL_GameControllerAxis → Int) : Host :=
  { getAttached := fun _ => true, numJoysticks := 1, isGameController := fun _ => true,
    gameControllerOpen := fun _ => some 7, hapticOpen := fun _ => some 9,
    hapticRumbleSupported := fun _ => true, hapticRumbleInit := fun _ => 0,
    getButton := fun _ b => buttons b, getAxis := fun _ a => axes a }

/-- A library that enumerates two joysticks, none of them a game controller. -/
def emptyHost : Host :=
  { getAttached := fun _ => false, numJoysticks := 2, isGameController := fun _ => false,
    gameControllerOpen := fun _ => none, hapticOpen := fun _ => none,
    hapticRumbleSupported := fun _ => false, hapticRumbleInit := fun _ => -1,
    getButton := fun _ _ => false, getAxis := fun _ _ => 0 }

/-- A ready adapter with no device bound yet. -/
def readyState : AdapterState :=
  { init_ok := true, sdl_cntrl := none, haptics_enabled := true, sdl_haptic := none }

/-- Axis readings: the six values in the order left X, left Y, right X, right Y,
left trigger, right trigger. -/
def axes (lx ly rx ry lt rt : Int) : SDL_GameControllerAxis → Int
  | .LEFTX => lx
  | .LEFTY => ly
  | .RIGHTX => rx
  | .RIGHTY => ry
  | .TRIGGERLEFT => lt
  | .TRIGGERRIGHT => rt

/-- No button pressed. -/
def noButtons : SDL_GameControllerButton → Bool := fun _ => false

/-! ## Arithmetic lemmas -/

theorem cdiv_of_nonneg {a : Int} (h : 0 ≤ a) : cdiv a 409 = a / 409 :=
  Int.tdiv_eq_ediv h (by decide)

theorem cdiv_of_nonpos {a : Int} (h : a ≤ 0) : cdiv a 409 = -((-a) / 409) := by
  have h1 : cdiv (-a) 409 = (-a) / 409 := cdiv_of_nonneg (by omega)
  unfold cdiv at h1 ⊢
  rw [Int.neg_tdiv] at h1
  omega

theorem cdiv_neg (a : Int) : cdiv (-a) 409 = -(cdiv a 409) := by
  unfold cdiv
  exact Int.neg_tdiv a 409

theorem cdiv_range {v : Int} (hlo : -32768 ≤ v) (hhi : v ≤ 32767) :
    -80 ≤ cdiv v 409 ∧ cdiv v 409 ≤ 80 := by
  rcases Int.le_total 0 v with h | h
  · rw [cdiv_of_nonneg h]; omega
  · rw [cdiv_of_nonpos h]; omega

theorem wrapS8_of_range {v : Int} (hlo : -128 ≤ v) (hhi : v ≤ 127) : wrapS8 v = v := by
  unfold wrapS8; omega

theorem wrapS8_cdiv {v : Int} (hlo : -32768 ≤ v) (hhi : v ≤ 32767) :
    wrapS8 (cdiv v 409) = cdiv v 409 := by
  have := cdiv_range hlo hhi
  exact wrapS8_of_range (by omega) (by omega)

theorem wrapS8_cdiv_neg {v : Int} (hlo : -32768 ≤ v) (hhi : v ≤ 32767) :
    wrapS8 (cdiv (-v) 409) = cdiv (-v) 409 := by
  have := cdiv_range hlo hhi
  rw [cdiv_neg]
  exact wrapS8_of_range (by omega) (by omega)

theorem sq_range {v : Int} (hlo : -32768 ≤ v) (hhi : v ≤ 32767) :
    0 ≤ v * v ∧ v * v ≤ 1073741824 := by
  constructor
  · exact mul_self_nonneg v
  · nlinarith

theorem toU32_sq {v : Int} (hlo : -32768 ≤ v) (hhi : v ≤ 32767) :
    (toU32 (v * v) : Int) = v * v := by
  have := sq_range hlo hhi
  unfold toU32
  omega

theorem deadzoneProduct_eq (d : Nat) : deadzoneProduct d = (d * 10 * (d * 10)) % 4294967296 := by
  unfold deadzoneProduct
  rw [Nat.mod_mul_mod, Nat.mul_assoc, Nat.mod_mul_mod]

theorem fixY_range (web : Bool) {y : Int} (hlo : -32768 ≤ y) (hhi : y ≤ 32767) :
    -32768 ≤ fixY web y ∧ fixY web y ≤ 32767 := by
  unfold fixY
  split <;> omega

theorem fixY_false (y : Int) : fixY false y = y := by
  simp [fixY]

theorem fixY_of_ne (web : Bool) {y : Int} (h : y ≠ -32768) : fixY web y = y := by
  simp [fixY, h]

/-! ## Lemmas on the pad record -/

theorem orButton_stick_x (pad : OSContPad) (p : Bool) (f : Nat) :
    (orButton pad p f).stick_x = pad.stick_x := by
  unfold orButton; split <;> rfl

theorem orButton_stick_y (pad : OSContPad) (p : Bool) (f : Nat) :
    (orButton pad p f).stick_y = pad.stick_y := by
  unfold orButton; split <;> rfl

theorem orButton_stick2_x (pad : OSContPad) (p : Bool) (f : Nat) :
    (orButton pad p f).stick2_x = pad.stick2_x := by
  unfold orButton; split <;> rfl

theorem orButton_stick2_y (pad : OSContPad) (p : Bool) (f : Nat) :
    (orButton pad p f).stick2_y = pad.stick2_y := by
  unfold orButton; split <;> rfl

theorem orButton_testBit (pad : OSContPad) (p : Bool) (f : Nat) {i : Nat} (hi : i < 16) :
    (orButton pad p f).button.testBit i = (pad.button.testBit i || (flagIf p f).testBit i) := by
  cases p
  · simp [orButton, flagIf]
  · have h16 : (65536 : Nat) = 2 ^ 16 := by norm_num
    simp only [orButton, flagIf, if_true]
    rw [h16, Nat.testBit_mod_two_pow, Nat.testBit_or]
    simp [hi]

/-- The left-stick X component after the mapping. -/
theorem mapInputs_stick_x (web : Bool) (k : ContFlags) (cfg : Settings) (h : Host) (c : Nat)
    (pad : OSContPad) :
    (mapInputs web k cfg h c pad).stick_x =
      if (toU32 (h.getAxis c .LEFTX * h.getAxis c .LEFTX)
            + toU32 (fixY web (h.getAxis c .LEFTY) * fixY web (h.getAxis c .LEFTY))) % 4294967296
          > deadzoneProduct cfg.gControllerLeftDeadzone
      then wrapS8 (cdiv (h.getAxis c .LEFTX) 409) else pad.stick_x := by
  unfold mapInputs
  simp only []
  split_ifs <;> simp [orButton_stick_x]

/-- The left-stick Y component after the mapping. -/
theorem mapInputs_stick_y (web : Bool) (k : ContFlags) (cfg : Settings) (h : Host) (c : Nat)
    (pad : OSContPad) :
    (mapInputs web k cfg h c pad).stick_y =
      if (toU32 (h.getAxis c .LEFTX * h.getAxis c .LEFTX)
            + toU32 (fixY web (h.getAxis c .LEFTY) * fixY web (h.getAxis c .LEFTY))) % 4294967296
          > deadzoneProduct cfg.gControllerLeftDeadzone
      then wrapS8 (cdiv (-fixY web (h.getAxis c .LEFTY)) 409) else pad.stick_y := by
  unfold mapInputs
  simp only []
  split_ifs <;> simp [orButton_stick_y]

/-- The right-stick X component after the mapping. -/
theorem mapInputs_stick2_x (web : Bool) (k : ContFlags) (cfg : Settings) (h : Host) (c : Nat)
    (pad : OSContPad) :
    (mapInputs web k cfg h c pad).stick2_x =
      if cfg.gImprovedCamera = true ∧
          toU32 (h.getAxis c .RIGHTX * h.getAxis c .RIGHTX)
            > deadzoneProduct cfg.gControllerRightDeadzone
      then wrapS8 (cdiv (h.getAxis c .RIGHTX) 409) else pad.stick2_x := by
  unfold mapInputs
  simp only []
  split_ifs <;> simp_all [orButton_stick2_x]

/-- The right-stick Y component after the mapping. -/
theorem mapInputs_stick2_y (web : Bool) (k : ContFlags) (cfg : Settings) (h : Host) (c : Nat)
    (pad : OSContPad) :
    (mapInputs web k cfg h c pad).stick2_y =
      if cfg.gVerticalCamera = true ∧
          toU32 (fixY web (h.getAxis c .RIGHTY) * fixY web (h.getAxis c .RIGHTY))
            > deadzoneProduct cfg.gControllerRightDeadzone
      then wrapS8 (cdiv (fixY web (h.getAxis c .RIGHTY)) 409) else pad.stick2_y := by
  unfold mapInputs
  simp only []
  split_ifs <;> simp_all [orButton_stick2_y]

/-- Every bit of the 16-bit button mask after the mapping: it was set before,
or it belongs to a flag contributed by a pressed button, by the right stick or
by a trigger. -/
theorem mapInputs_button_testBit (web : Bool) (k : ContFlags) (cfg : Settings) (h : Host)
    (c : Nat) (pad : OSContPad) {i : Nat} (hi : i < 16) :
    (mapInputs web k cfg h c pad).button.testBit i =
      (pad.button.testBit i
        || (buttonFlags k cfg h c).testBit i
        || (rightXFlags k cfg (h.getAxis c .RIGHTX)).testBit i
        || (rightYFlags k cfg (fixY web (h.getAxis c .RIGHTY))).testBit i
        || (leftTriggerFlag cfg (h.getAxis c .TRIGGERLEFT)).testBit i
        || (rightTriggerFlag cfg (h.getAxis c .TRIGGERRIGHT)).testBit i) := by
  unfold mapInputs buttonFlags rightXFlags rightYFlags leftTriggerFlag rightTriggerFlag
  simp only []
  split_ifs <;> simp [orButton_testBit, hi, Nat.testBit_or, Bool.or_assoc]

/-! ## Lemmas on the poll -/

theorem read_not_ready (web : Bool) (k : ContFlags) (cfg : Settings) (h : Host)
    (s : AdapterState) (pad : OSContPad) (hinit : s.init_ok = false) :
    controller_sdl_read web k cfg h s pad = (s, pad) := by
  simp [controller_sdl_read, hinit]

theorem read_unbound (web : Bool) (k : ContFlags) (cfg : Settings) (h : Host)
    (s : AdapterState) (pad : OSContPad) (hinit : s.init_ok = true)
    (hb : (bindDevice h s).sdl_cntrl = none) :
    controller_sdl_read web k cfg h s pad = (bindDevice h s, pad) := by
  simp [controller_sdl_read, hinit, hb]

theorem read_bound (web : Bool) (k : ContFlags) (cfg : Settings) (h : Host)
    (s : AdapterState) (pad : OSContPad) {c : Nat} (hinit : s.init_ok = true)
    (hb : (bindDevice h s).sdl_cntrl = some c) :
    controller_sdl_read web k cfg h s pad = (bindDevice h s, mapInputs web k cfg h c pad) := by
  simp [controller_sdl_read, hinit, hb]

theorem read_pad_cases (web : Bool) (k : ContFlags) (cfg : Settings) (h : Host)
    (s : AdapterState) (pad : OSContPad) :
    (controller_sdl_read web k cfg h s pad).2 = pad ∨
      ∃ c, (controller_sdl_read web k cfg h s pad).2 = mapInputs web k cfg h c pad := by
  cases hinit : s.init_ok with
  | false => left; rw [read_not_ready web k cfg h s pad hinit]
  | true =>
    cases hb : (bindDevice h s).sdl_cntrl with
    | none => left; rw [read_unbound web k cfg h s pad hinit hb]
    | some c => right; exact ⟨c, by rw [read_bound web k cfg h s pad hinit hb]⟩

theorem leftMagnitude_cast {x y : Int} (hxlo : -32768 ≤ x) (hxhi : x ≤ 32767)
    (hylo : -32768 ≤ y) (hyhi : y ≤ 32767) :
    (((toU32 (x * x) + toU32 (y * y)) % 4294967296 : Nat) : Int) = x * x + y * y := by
  have h1 := toU32_sq hxlo hxhi
  have h2 := toU32_sq hylo hyhi
  have h3 := sq_range hxlo hxhi
  have h4 := sq_range hylo hyhi
  omega

theorem deadzoneProduct_cast (d : Nat) :
    (deadzoneProduct d : Int) = (((d * 10) * (d * 10) % 4294967296 : Nat) : Int) := by
  rw [deadzoneProduct_eq]

theorem deadzoneProduct_le (d : Nat) :
    (deadzoneProduct d : Int) ≤ ((d : Int) * 10) * ((d : Int) * 10) := by
  have h : deadzoneProduct d ≤ (d * 10) * (d * 10) := by
    rw [deadzoneProduct_eq]; exact Nat.mod_le _ _
  exact_mod_cast h

theorem fixY_sq_le (web : Bool) (y : Int) : fixY web y * fixY web y ≤ y * y := by
  unfold fixY
  split
  · rename_i hc
    simp only [Bool.and_eq_true, decide_eq_true_eq] at hc
    rw [hc.2]; norm_num
  · exact le_refl _

theorem read_bound_pad (web : Bool) (k : ContFlags) (cfg : Settings) (h : Host)
    (s : AdapterState) (pad : OSContPad) {c : Nat} (hinit : s.init_ok = true)
    (hb : (bindDevice h s).sdl_cntrl = some c) :
    (controller_sdl_read web k cfg h s pad).2 = mapInputs web k cfg h c pad := by
  rw [read_bound web k cfg h s pad hinit hb]

/-- The left stick is written when the squared magnitude of the (corrected)
readings exceeds `(d*10)^2`. -/
theorem left_stick_of_magnitude (web : Bool) (k : ContFlags) (cfg : Settings)
    (h : Host) (s : AdapterState) (pad : OSContPad) (c : Nat) (x y : Int)
    (hinit : s.init_ok = true) (hb : (bindDevice h s).sdl_cntrl = some c)
    (hx : h.getAxis c .LEFTX = x) (hy : h.getAxis c .LEFTY = y)
    (hxlo : -32768 ≤ x) (hxhi : x ≤ 32767) (hylo : -32768 ≤ y) (hyhi : y ≤ 32767)
    (hmag : x * x + fixY web y * fixY web y >
      ((cfg.gControllerLeftDeadzone : Int) * 10) * ((cfg.gControllerLeftDeadzone : Int) * 10)) :
    (controller_sdl_read web k cfg h s pad).2.stick_x = cdiv x 409 ∧
    (controller_sdl_read web k cfg h s pad).2.stick_y = cdiv (-fixY web y) 409 := by
  have hf := fixY_range web hylo hyhi
  have hm := leftMagnitude_cast hxlo hxhi hf.1 hf.2
  have hd := deadzoneProduct_le cfg.gControllerLeftDeadzone
  have hcond : (toU32 (x * x) + toU32 (fixY web y * fixY web y)) % 4294967296
      > deadzoneProduct cfg.gControllerLeftDeadzone := by
    have : (deadzoneProduct cfg.gControllerLeftDeadzone : Int)
        < (((toU32 (x * x) + toU32 (fixY web y * fixY web y)) % 4294967296 : Nat) : Int) := by
      rw [hm]; exact lt_of_le_of_lt hd hmag
    exact_mod_cast this
  rw [read_bound_pad web k cfg h s pad hinit hb]
  rw [mapInputs_stick_x, mapInputs_stick_y, hx, hy, if_pos hcond, if_pos hcond,
    wrapS8_cdiv hxlo hxhi, wrapS8_cdiv_neg hf.1 hf.2]
  exact ⟨rfl, rfl⟩

/-- The button mask after a poll with a bound device, bit by bit. -/
theorem read_bound_button_testBit (web : Bool) (k : ContFlags) (cfg : Settings) (h : Host)
    (s : AdapterState) (pad : OSContPad) {c : Nat} (hinit : s.init_ok = true)
    (hb : (bindDevice h s).sdl_cntrl = some c) {i : Nat} (hi : i < 16) :
    (controller_sdl_read web k cfg h s pad).2.button.testBit i =
      (pad.button.testBit i
        || (buttonFlags k cfg h c).testBit i
        || (rightXFlags k cfg (h.getAxis c .RIGHTX)).testBit i
        || (rightYFlags k cfg (fixY web (h.getAxis c .RIGHTY))).testBit i
        || (leftTriggerFlag cfg (h.getAxis c .TRIGGERLEFT)).testBit i
        || (rightTriggerFlag cfg (h.getAxis c .TRIGGERRIGHT)).testBit i) := by
  rw [read_bound_pad web k cfg h s pad hinit hb]
  exact mapInputs_button_testBit web k cfg h c pad hi

theorem searchFrom_withAxis (h : Host) (a : SDL_GameControllerAxis) (v : Int) :
    ∀ (n : Nat) (s : AdapterState) (i : Nat),
      searchFrom (withAxis h a v) s n i = searchFrom h s n i := by
  intro n
  induction n with
  | zero => intro s i; rfl
  | succ n ih =>
    intro s i
    simp only [searchFrom]
    rw [ih, ih]
    rfl

theorem bindDevice_withAxis (h : Host) (a : SDL_GameControllerAxis) (v : Int)
    (s : AdapterState) : bindDevice (withAxis h a v) s = bindDevice h s := by
  unfold bindDevice
  simp only []
  rw [searchFrom_withAxis]
  rfl

theorem buttonFlags_none (k : ContFlags) (cfg : Settings) (h : Host) (c : Nat)
    (hnb : ∀ b, h.getButton c b = false) : buttonFlags k cfg h c = 0 := by
  simp [buttonFlags, hnb, flagIf]

theorem orButton_button_lt (pad : OSContPad) (p : Bool) (f : Nat)
    (hpad : pad.button < 65536) : (orButton pad p f).button < 65536 := by
  unfold orButton
  split
  · exact Nat.mod_lt _ (by norm_num)
  · exact hpad

theorem mapInputs_button_lt (web : Bool) (k : ContFlags) (cfg : Settings) (h : Host) (c : Nat)
    (pad : OSContPad) (hpad : pad.button < 65536) :
    (mapInputs web k cfg h c pad).button < 65536 := by
  unfold mapInputs
  simp only []
  split_ifs <;>
    repeat (first | exact hpad | apply orButton_button_lt | dsimp only)

/-- The right stick X component after a poll with a bound device. -/
theorem read_bound_stick2_x (web : Bool) (k : ContFlags) (cfg : Settings) (h : Host)
    (s : AdapterState) (pad : OSContPad) {c : Nat} (hinit : s.init_ok = true)
    (hb : (bindDevice h s).sdl_cntrl = some c) {rx : Int} (hrx : h.getAxis c .RIGHTX = rx)
    (hlo : -32768 ≤ rx) (hhi : rx ≤ 32767) :
    (controller_sdl_read web k cfg h s pad).2.stick2_x =
      if cfg.gImprovedCamera = true ∧ rx * rx >
          ((((cfg.gControllerRightDeadzone * 10) * (cfg.gControllerRightDeadzone * 10))
            % 4294967296 : Nat) : Int)
      then cdiv rx 409 else pad.stick2_x := by
  rw [read_bound_pad web k cfg h s pad hinit hb, mapInputs_stick2_x, hrx,
    wrapS8_cdiv hlo hhi]
  have h1 := toU32_sq hlo hhi
  have h2 := deadzoneProduct_cast cfg.gControllerRightDeadzone
  have hiff : toU32 (rx * rx) > deadzoneProduct cfg.gControllerRightDeadzone ↔
      rx * rx > ((((cfg.gControllerRightDeadzone * 10) * (cfg.gControllerRightDeadzone * 10))
            % 4294967296 : Nat) : Int) := by
    omega
  simp only [hiff]

/-- The right stick Y component after a poll with a bound device. -/
theorem read_bound_stick2_y (web : Bool) (k : ContFlags) (cfg : Settings) (h : Host)
    (s : AdapterState) (pad : OSContPad) {c : Nat} (hinit : s.init_ok = true)
    (hb : (bindDevice h s).sdl_cntrl = some c) {ry : Int} (hry : h.getAxis c .RIGHTY = ry)
    (hlo : -32768 ≤ ry) (hhi : ry ≤ 32767) :
    (controller_sdl_read web k cfg h s pad).2.stick2_y =
      if cfg.gVerticalCamera = true ∧ fixY web ry * fixY web ry >
          ((((cfg.gControllerRightDeadzone * 10) * (cfg.gControllerRightDeadzone * 10))
            % 4294967296 : Nat) : Int)
      then cdiv (fixY web ry) 409 else pad.stick2_y := by
  have hf := fixY_range web hlo hhi
  rw [read_bound_pad web k cfg h s pad hinit hb, mapInputs_stick2_y, hry,
    wrapS8_cdiv hf.1 hf.2]
  have h1 := toU32_sq hf.1 hf.2
  have h2 := deadzoneProduct_cast cfg.gControllerRightDeadzone
  have hiff : toU32 (fixY web ry * fixY web ry)
        > deadzoneProduct cfg.gControllerRightDeadzone ↔
      fixY web ry * fixY web ry >
        ((((cfg.gControllerRightDeadzone * 10) * (cfg.gControllerRightDeadzone * 10))
            % 4294967296 : Nat) : Int) := by
    omega
  simp only [hiff]

theorem deadzone_mod_le (d : Nat) :
    ((((d * 10) * (d * 10)) % 4294967296 : Nat) : Int) ≤ ((d : Int) * 10) * ((d : Int) * 10) := by
  have h : ((d * 10) * (d * 10)) % 4294967296 ≤ (d * 10) * (d * 10) := Nat.mod_le _ _
  exact_mod_cast h

theorem eq_mod_of_testBit {a b : Nat} (ha : a < 65536)
    (hbits : ∀ i, i < 16 → a.testBit i = b.testBit i) : a = b % 65536 := by
  have h16 : (65536 : Nat) = 2 ^ 16 := by norm_num
  apply Nat.eq_of_testBit_eq
  intro i
  rw [h16, Nat.testBit_mod_two_pow]
  by_cases hi : i < 16
  · simp [hi, hbits i hi]
  · have hlt : a < 2 ^ i :=
      lt_of_lt_of_le (h16 ▸ ha) (Nat.pow_le_pow_right (by norm_num) (Nat.le_of_not_lt hi))
    simp [hi, Nat.testBit_lt_two_pow hlt]

theorem toU32_zero : toU32 0 = 0 := by decide

theorem fixY_zero (web : Bool) : fixY web 0 = 0 := fixY_of_ne web (by decide)

/-! ## The left stick -/

/-- Claim C1: with a bound device `c`, signed 16-bit left-stick readings `x`, `y`
and a left deadzone `d` such that `x*x + y*y > (d*10)*(d*10)`, the poll leaves
`stick_x = x/409` and `stick_y = (-y)/409`, both truncated toward zero. The
reading `y = -32768` is covered when the web correction is not compiled in. -/
theorem left_stick_scaled_beyond_deadzone (web : Bool) (k : ContFlags) (cfg : Settings)
    (h : Host) (s : AdapterState) (pad : OSContPad) (c : Nat) (x y : Int)
    (hinit : s.init_ok = true) (hb : (bindDevice h s).sdl_cntrl = some c)
    (hx : h.getAxis c .LEFTX = x) (hy : h.getAxis c .LEFTY = y)
    (hxlo : -32768 ≤ x) (hxhi : x ≤ 32767) (hylo : -32768 ≤ y) (hyhi : y ≤ 32767)
    (hweb : web = true → y ≠ -32768)
    (hmag : x * x + y * y >
      ((cfg.gControllerLeftDeadzone : Int) * 10) * ((cfg.gControllerLeftDeadzone : Int) * 10)) :
    (controller_sdl_read web k cfg h s pad).2.stick_x = cdiv x 409 ∧
    (controller_sdl_read web k cfg h s pad).2.stick_y = cdiv (-y) 409 := by
  have hfix : fixY web y = y := by
    cases web with
    | false => exact fixY_false y
    | true => exact fixY_of_ne true (hweb rfl)
  have hres := left_stick_of_magnitude web k cfg h s pad c x y hinit hb hx hy hxlo hxhi hylo hyhi
    (by rw [hfix]; exact hmag)
  rw [hfix] at hres
  exact hres

/-- A poll beyond the left deadzone: deadzone 512, readings `(20000, -32768)`, no
web correction; the stick is written as `(20000/409, 32768/409)`. -/
theorem left_stick_scaled_beyond_deadzone_witness :
    (controller_sdl_read false sampleFlags (sampleSettings 512 512 false false)
        (sampleHost noButtons (axes 20000 (-32768) 0 0 0 0)) readyState zeroPad).2.stick_x
      = cdiv 20000 409 ∧
    (controller_sdl_read false sampleFlags (sampleSettings 512 512 false false)
        (sampleHost noButtons (axes 20000 (-32768) 0 0 0 0)) readyState zeroPad).2.stick_y
      = cdiv (- -32768) 409 :=
  left_stick_scaled_beyond_deadzone false sampleFlags (sampleSettings 512 512 false false)
    (sampleHost noButtons (axes 20000 (-32768) 0 0 0 0)) readyState zeroPad 7 20000 (-32768)
    rfl (by decide) rfl rfl (by decide) (by decide) (by decide) (by decide)
    (by decide) (by decide)

/-- Claim C2, as stated, fails: with left deadzone 6554 the product
`d*10*d*10` wraps to 524304 in 32 bits, so the readings `(1000, 0)`, whose
squared magnitude is below `(6554*10)^2`, are written: `stick_x` goes from 0
to 2. -/
theorem left_stick_deadzone_overflow_counterexample :
    ((1000 : Int) * 1000 + 0 * 0 ≤ ((6554 : Int) * 10) ^ 2) ∧
    readyState.init_ok = true ∧
    (bindDevice (sampleHost noButtons (axes 1000 0 0 0 0 0)) readyState).sdl_cntrl = some 7 ∧
    (controller_sdl_read false sampleFlags (sampleSettings 6554 512 true true)
        (sampleHost noButtons (axes 1000 0 0 0 0 0)) readyState zeroPad).2.stick_x = 2 ∧
    (controller_sdl_read false sampleFlags (sampleSettings 6554 512 true true)
        (sampleHost noButtons (axes 1000 0 0 0 0 0)) readyState zeroPad).2.stick_x
      ≠ zeroPad.stick_x := by
  decide

/-- Claim C2, amended: with a bound device `c`, a left deadzone `d` and signed
16-bit left-stick readings `x`, `y` with `x*x + y*y ≤ (d*10)^2 mod 2^32` (the
threshold as the code computes it, equal to `(d*10)^2` when that is below
`2^32`), `stick_x` and `stick_y` after the poll are their values before it. -/
theorem left_stick_unchanged_within_deadzone (web : Bool) (k : ContFlags) (cfg : Settings)
    (h : Host) (s : AdapterState) (pad : OSContPad) (c : Nat) (x y : Int)
    (hinit : s.init_ok = true) (hb : (bindDevice h s).sdl_cntrl = some c)
    (hx : h.getAxis c .LEFTX = x) (hy : h.getAxis c .LEFTY = y)
    (hxlo : -32768 ≤ x) (hxhi : x ≤ 32767) (hylo : -32768 ≤ y) (hyhi : y ≤ 32767)
    (hmag : x * x + y * y ≤
      ((((cfg.gControllerLeftDeadzone * 10) * (cfg.gControllerLeftDeadzone * 10))
        % 4294967296 : Nat) : Int)) :
    (controller_sdl_read web k cfg h s pad).2.stick_x = pad.stick_x ∧
    (controller_sdl_read web k cfg h s pad).2.stick_y = pad.stick_y := by
  have hf := fixY_range web hylo hyhi
  have hm := leftMagnitude_cast hxlo hxhi hf.1 hf.2
  have hsq := fixY_sq_le web y
  have hd := deadzoneProduct_cast cfg.gControllerLeftDeadzone
  have hcond : ¬ ((toU32 (x * x) + toU32 (fixY web y * fixY web y)) % 4294967296
      > deadzoneProduct cfg.gControllerLeftDeadzone) := by
    have : (((toU32 (x * x) + toU32 (fixY web y * fixY web y)) % 4294967296 : Nat) : Int)
        ≤ (deadzoneProduct cfg.gControllerLeftDeadzone : Int) := by
      rw [hm, hd]; linarith
    have h2 : (toU32 (x * x) + toU32 (fixY web y * fixY web y)) % 4294967296
        ≤ deadzoneProduct cfg.gControllerLeftDeadzone := by exact_mod_cast this
    exact Nat.not_lt.mpr h2
  rw [read_bound web k cfg h s pad hinit hb]
  simp only []
  rw [mapInputs_stick_x, mapInputs_stick_y, hx, hy, if_neg hcond, if_neg hcond]
  exact ⟨rfl, rfl⟩

/-- A poll within the left deadzone: deadzone 512 (threshold `5120^2`), readings
`(3000, -4000)`; the stick keeps its prior value. -/
theorem left_stick_unchanged_within_deadzone_witness :
    (controller_sdl_read false sampleFlags (sampleSettings 512 512 false false)
        (sampleHost noButtons (axes 3000 (-4000) 0 0 0 0)) readyState zeroPad).2.stick_x
      = zeroPad.stick_x ∧
    (controller_sdl_read false sampleFlags (sampleSettings 512 512 false false)
        (sampleHost noButtons (axes 3000 (-4000) 0 0 0 0)) readyState zeroPad).2.stick_y
      = zeroPad.stick_y :=
  left_stick_unchanged_within_deadzone false sampleFlags (sampleSettings 512 512 false false)
    (sampleHost noButtons (axes 3000 (-4000) 0 0 0 0)) readyState zeroPad 7 3000 (-4000)
    rfl (by decide) rfl rfl (by decide) (by decide) (by decide) (by decide) (by decide)

/-! ## The range of the analog values -/

/-- Claim C3: for every signed 16-bit reading `v`, `v/409` and `(-v)/409`
(truncated toward zero) lie in `-80 .. 80` and pass unchanged through a signed
8-bit store; and after any poll whose axis readings are signed 16-bit values,
each of `stick_x`, `stick_y`, `stick2_x`, `stick2_y` is either its value before
the poll or a value in `-80 .. 80`. -/
theorem stick_values_within_80 (v : Int) (web : Bool) (k : ContFlags) (cfg : Settings)
    (h : Host) (s : AdapterState) (pad : OSContPad)
    (hlo : -32768 ≤ v) (hhi : v ≤ 32767)
    (hax : ∀ c a, -32768 ≤ h.getAxis c a ∧ h.getAxis c a ≤ 32767) :
    ((-80 ≤ cdiv v 409 ∧ cdiv v 409 ≤ 80) ∧ (-80 ≤ cdiv (-v) 409 ∧ cdiv (-v) 409 ≤ 80) ∧
      wrapS8 (cdiv v 409) = cdiv v 409 ∧ wrapS8 (cdiv (-v) 409) = cdiv (-v) 409) ∧
    (((controller_sdl_read web k cfg h s pad).2.stick_x = pad.stick_x ∨
        (-80 ≤ (controller_sdl_read web k cfg h s pad).2.stick_x ∧
          (controller_sdl_read web k cfg h s pad).2.stick_x ≤ 80)) ∧
     ((controller_sdl_read web k cfg h s pad).2.stick_y = pad.stick_y ∨
        (-80 ≤ (controller_sdl_read web k cfg h s pad).2.stick_y ∧
          (controller_sdl_read web k cfg h s pad).2.stick_y ≤ 80)) ∧
     ((controller_sdl_read web k cfg h s pad).2.stick2_x = pad.stick2_x ∨
        (-80 ≤ (controller_sdl_read web k cfg h s pad).2.stick2_x ∧
          (controller_sdl_read web k cfg h s pad).2.stick2_x ≤ 80)) ∧
     ((controller_sdl_read web k cfg h s pad).2.stick2_y = pad.stick2_y ∨
        (-80 ≤ (controller_sdl_read web k cfg h s pad).2.stick2_y ∧
          (controller_sdl_read web k cfg h s pad).2.stick2_y ≤ 80))) := by
  refine ⟨⟨cdiv_range hlo hhi, ?_, wrapS8_cdiv hlo hhi, wrapS8_cdiv_neg hlo hhi⟩, ?_⟩
  · have := cdiv_range hlo hhi
    rw [cdiv_neg]; omega
  · rcases read_pad_cases web k cfg h s pad with hp | ⟨c, hp⟩
    · rw [hp]; exact ⟨Or.inl rfl, Or.inl rfl, Or.inl rfl, Or.inl rfl⟩
    · rw [hp]
      have hlx := hax c .LEFTX
      have hly := fixY_range web (hax c .LEFTY).1 (hax c .LEFTY).2
      have hrx := hax c .RIGHTX
      have hry := fixY_range web (hax c .RIGHTY).1 (hax c .RIGHTY).2
      refine ⟨?_, ?_, ?_, ?_⟩
      · rw [mapInputs_stick_x]
        split
        · right; rw [wrapS8_cdiv hlx.1 hlx.2]; exact cdiv_range hlx.1 hlx.2
        · left; rfl
      · rw [mapInputs_stick_y]
        split
        · right
          rw [wrapS8_cdiv_neg hly.1 hly.2, cdiv_neg]
          have := cdiv_range hly.1 hly.2
          omega
        · left; rfl
      · rw [mapInputs_stick2_x]
        split
        · right; rw [wrapS8_cdiv hrx.1 hrx.2]; exact cdiv_range hrx.1 hrx.2
        · left; rfl
      · rw [mapInputs_stick2_y]
        split
        · right; rw [wrapS8_cdiv hry.1 hry.2]; exact cdiv_range hry.1 hry.2
        · left; rfl

/-- The extreme reading `-32768` and a poll with all four stick axes at extreme
values: both quotients are `-80` and `80`, and the poll writes `-80`, `80`,
`80`, `-80`. -/
theorem stick_values_within_80_witness :
    (cdiv (-32768) 409 = -80 ∧ cdiv (- -32768) 409 = 80) ∧
    (controller_sdl_read false sampleFlags (sampleSettings 512 512 true true)
        (sampleHost noButtons (axes (-32768) (-32768) 32767 (-32768) 0 0)) readyState
        zeroPad).2 = { button := 0, stick_x := -80, stick_y := 80, stick2_x := 80,
                       stick2_y := -80 } ∧
    ((-80 ≤ cdiv (-32768) 409 ∧ cdiv (-32768) 409 ≤ 80) ∧
      (-80 ≤ cdiv (- -32768) 409 ∧ cdiv (- -32768) 409 ≤ 80) ∧
      wrapS8 (cdiv (-32768) 409) = cdiv (-32768) 409 ∧
      wrapS8 (cdiv (- -32768) 409) = cdiv (- -32768) 409) :=
  ⟨by decide, by decide,
    (stick_values_within_80 (-32768) false sampleFlags (sampleSettings 512 512 true true)
      (sampleHost noButtons (axes (-32768) (-32768) 32767 (-32768) 0 0)) readyState zeroPad
      (by decide) (by decide)
      (fun _ a => by cases a <;> simp [sampleHost, axes])).1⟩

/-! ## The web correction of the Y axes -/

/-- Claim C4: with the web correction compiled in, a poll in which a Y axis
(left or right stick) reads `-32768` returns the same state and pad record as
the same poll with that axis reading `32767`; there, left Y `-32768` beyond the
deadzone gives `stick_y = -80`. Without the correction, left Y `-32768` beyond
the deadzone gives `stick_y = 80`, and with the vertical camera off right Y
`-32768` ORs `U_CBUTTONS` into the mask and not `D_CBUTTONS`: each bit of the
mask is a prior bit, a bit of `U_CBUTTONS`, or a bit of a flag of another input. -/
theorem web_sentinel_remap (k : ContFlags) (cfg : Settings) (h : Host) (s : AdapterState)
    (pad : OSContPad) :
    (∀ a : SDL_GameControllerAxis, a = .LEFTY ∨ a = .RIGHTY →
      controller_sdl_read true k cfg (withAxis h a (-32768)) s pad
        = controller_sdl_read true k cfg (withAxis h a 32767) s pad) ∧
    (∀ (c : Nat) (x : Int), s.init_ok = true → (bindDevice h s).sdl_cntrl = some c →
      h.getAxis c .LEFTX = x → h.getAxis c .LEFTY = -32768 → -32768 ≤ x → x ≤ 32767 →
      x * x + 32767 * 32767 >
        ((cfg.gControllerLeftDeadzone : Int) * 10) * ((cfg.gControllerLeftDeadzone : Int) * 10) →
      (controller_sdl_read true k cfg h s pad).2.stick_y = -80) ∧
    (∀ (c : Nat) (x : Int), s.init_ok = true → (bindDevice h s).sdl_cntrl = some c →
      h.getAxis c .LEFTX = x → h.getAxis c .LEFTY = -32768 → -32768 ≤ x → x ≤ 32767 →
      x * x + 32768 * 32768 >
        ((cfg.gControllerLeftDeadzone : Int) * 10) * ((cfg.gControllerLeftDeadzone : Int) * 10) →
      (controller_sdl_read false k cfg h s pad).2.stick_y = 80) ∧
    (∀ (c : Nat), s.init_ok = true → (bindDevice h s).sdl_cntrl = some c →
      cfg.gVerticalCamera = false → h.getAxis c .RIGHTY = -32768 →
      ∀ i : Nat, i < 16 →
        (controller_sdl_read false k cfg h s pad).2.button.testBit i =
          (pad.button.testBit i
            || (buttonFlags k cfg h c).testBit i
            || (rightXFlags k cfg (h.getAxis c .RIGHTX)).testBit i
            || k.U_CBUTTONS.testBit i
            || (leftTriggerFlag cfg (h.getAxis c .TRIGGERLEFT)).testBit i
            || (rightTriggerFlag cfg (h.getAxis c .TRIGGERRIGHT)).testBit i)) := by
  refine ⟨?_, ?_, ?_, ?_⟩
  · intro a ha
    unfold controller_sdl_read
    rw [bindDevice_withAxis, bindDevice_withAxis]
    have hmap : ∀ c, mapInputs true k cfg (withAxis h a (-32768)) c pad
        = mapInputs true k cfg (withAxis h a 32767) c pad := by
      intro c
      rcases ha with rfl | rfl <;> simp [mapInputs, withAxis, fixY]
    simp only [hmap]
  · intro c x hinit hb hx hy hxlo hxhi hmag
    have hfix : fixY true (-32768) = 32767 := by decide
    have hres := left_stick_of_magnitude true k cfg h s pad c x (-32768) hinit hb hx hy hxlo hxhi
      (by decide) (by decide) (by rw [hfix]; exact hmag)
    rw [hres.2, hfix]; decide
  · intro c x hinit hb hx hy hxlo hxhi hmag
    have hfix : fixY false (-32768) = -32768 := by decide
    have hres := left_stick_of_magnitude false k cfg h s pad c x (-32768) hinit hb hx hy hxlo
      hxhi (by decide) (by decide) (by rw [hfix]; exact hmag)
    rw [hres.2, hfix]; decide
  · intro c hinit hb hv hy i hi
    rw [read_bound_button_testBit false k cfg h s pad hinit hb hi, hy]
    simp [rightYFlags, hv, fixY, flagIf]

/-- Polls with left Y and right Y at `-32768`, deadzone 512, camera toggles off:
with the web correction the pad record is the one obtained from `32767`
(`stick_y = -80`); without it `stick_y = 80` and the mask is `U_CBUTTONS`. -/
theorem web_sentinel_remap_witness :
    (controller_sdl_read true sampleFlags (sampleSettings 512 512 false false)
        (withAxis (sampleHost noButtons (axes 0 0 0 0 0 0)) .LEFTY (-32768)) readyState zeroPad
      = controller_sdl_read true sampleFlags (sampleSettings 512 512 false false)
        (withAxis (sampleHost noButtons (axes 0 0 0 0 0 0)) .LEFTY 32767) readyState zeroPad) ∧
    (controller_sdl_read true sampleFlags (sampleSettings 512 512 false false)
        (sampleHost noButtons (axes 0 (-32768) 0 (-32768) 0 0)) readyState zeroPad).2.stick_y
      = -80 ∧
    (controller_sdl_read false sampleFlags (sampleSettings 512 512 false false)
        (sampleHost noButtons (axes 0 (-32768) 0 (-32768) 0 0)) readyState zeroPad).2.stick_y
      = 80 ∧
    (controller_sdl_read false sampleFlags (sampleSettings 512 512 false false)
        (sampleHost noButtons (axes 0 (-32768) 0 (-32768) 0 0)) readyState zeroPad).2.button
      = sampleFlags.U_CBUTTONS :=
  ⟨(web_sentinel_remap sampleFlags (sampleSettings 512 512 false false)
      (sampleHost noButtons (axes 0 0 0 0 0 0)) readyState zeroPad).1 .LEFTY (Or.inl rfl),
   (web_sentinel_remap sampleFlags (sampleSettings 512 512 false false)
      (sampleHost noButtons (axes 0 (-32768) 0 (-32768) 0 0)) readyState zeroPad).2.1 7 0
      rfl (by decide) rfl rfl (by decide) (by decide) (by decide),
   (web_sentinel_remap sampleFlags (sampleSettings 512 512 false false)
      (sampleHost noButtons (axes 0 (-32768) 0 (-32768) 0 0)) readyState zeroPad).2.2.1 7 0
      rfl (by decide) rfl rfl (by decide) (by decide) (by decide),
   by decide⟩

/-! ## The right stick -/

/-- Claim C5: with a bound device `c`, no button pressed and a right-stick X
reading `rx > 0x4000`: when the improved camera is off, the poll sets every bit
of `R_CBUTTONS` in the mask (the mask is the prior mask, `R_CBUTTONS` and the
flags of right Y and of the triggers) and `stick2_x` is unchanged; when it is on
and `rx*rx > (rd*10)^2`, the poll writes `stick2_x = rx/409` and ORs neither
`L_CBUTTONS` nor `R_CBUTTONS` into the mask: every bit of the mask is its prior
value or a bit of a flag of right Y or of a trigger. -/
theorem right_stick_x_camera_toggle (web : Bool) (k : ContFlags) (cfg : Settings) (h : Host)
    (s : AdapterState) (pad : OSContPad) (c : Nat) (rx : Int)
    (hinit : s.init_ok = true) (hb : (bindDevice h s).sdl_cntrl = some c)
    (hnb : ∀ b, h.getButton c b = false)
    (hrx : h.getAxis c .RIGHTX = rx) (hgt : rx > 0x4000) (hhi : rx ≤ 32767) :
    (cfg.gImprovedCamera = false →
      (∀ i : Nat, i < 16 → k.R_CBUTTONS.testBit i = true →
        (controller_sdl_read web k cfg h s pad).2.button.testBit i = true) ∧
      (∀ i : Nat, i < 16 →
        (controller_sdl_read web k cfg h s pad).2.button.testBit i =
          (pad.button.testBit i
            || k.R_CBUTTONS.testBit i
            || (rightYFlags k cfg (fixY web (h.getAxis c .RIGHTY))).testBit i
            || (leftTriggerFlag cfg (h.getAxis c .TRIGGERLEFT)).testBit i
            || (rightTriggerFlag cfg (h.getAxis c .TRIGGERRIGHT)).testBit i)) ∧
      (controller_sdl_read web k cfg h s pad).2.stick2_x = pad.stick2_x) ∧
    (cfg.gImprovedCamera = true →
      rx * rx > ((cfg.gControllerRightDeadzone : Int) * 10)
        * ((cfg.gControllerRightDeadzone : Int) * 10) →
      (controller_sdl_read web k cfg h s pad).2.stick2_x = cdiv rx 409 ∧
      (∀ i : Nat, i < 16 →
        (controller_sdl_read web k cfg h s pad).2.button.testBit i =
          (pad.button.testBit i
            || (rightYFlags k cfg (fixY web (h.getAxis c .RIGHTY))).testBit i
            || (leftTriggerFlag cfg (h.getAxis c .TRIGGERLEFT)).testBit i
            || (rightTriggerFlag cfg (h.getAxis c .TRIGGERRIGHT)).testBit i))) := by
  have hbits : ∀ i : Nat, i < 16 →
      (controller_sdl_read web k cfg h s pad).2.button.testBit i =
        (pad.button.testBit i
          || (rightXFlags k cfg rx).testBit i
          || (rightYFlags k cfg (fixY web (h.getAxis c .RIGHTY))).testBit i
          || (leftTriggerFlag cfg (h.getAxis c .TRIGGERLEFT)).testBit i
          || (rightTriggerFlag cfg (h.getAxis c .TRIGGERRIGHT)).testBit i) := by
    intro i hi
    rw [read_bound_button_testBit web k cfg h s pad hinit hb hi, buttonFlags_none k cfg h c hnb,
      hrx]
    simp
  have hst := read_bound_stick2_x web k cfg h s pad hinit hb hrx (by omega) hhi
  constructor
  · intro hoff
    have hflags : rightXFlags k cfg rx = k.R_CBUTTONS := by
      have h1 : ¬ (rx < -16384) := by omega
      simp [rightXFlags, hoff, flagIf, h1, hgt]
    refine ⟨?_, ?_, ?_⟩
    · intro i hi hbit
      rw [hbits i hi, hflags, hbit]; simp
    · intro i hi
      rw [hbits i hi, hflags]
    · rw [hst, if_neg (by simp [hoff])]
  · intro hon hmag
    have hflags : rightXFlags k cfg rx = 0 := by simp [rightXFlags, hon]
    constructor
    · have hd := deadzone_mod_le cfg.gControllerRightDeadzone
      rw [hst, if_pos ⟨hon, lt_of_le_of_lt hd hmag⟩]
    · intro i hi
      rw [hbits i hi, hflags]; simp

/-- Two polls with right-stick X at 20000, right deadzone 512, nothing else
active: with the improved camera off the mask becomes `R_CBUTTONS` and
`stick2_x` stays 0; with it on `stick2_x = 20000/409 = 48` and the mask stays 0. -/
theorem right_stick_x_camera_toggle_witness :
    ((controller_sdl_read false sampleFlags (sampleSettings 512 512 false false)
        (sampleHost noButtons (axes 0 0 20000 0 0 0)) readyState zeroPad).2.stick2_x
      = zeroPad.stick2_x) ∧
    ((controller_sdl_read false sampleFlags (sampleSettings 512 512 true false)
        (sampleHost noButtons (axes 0 0 20000 0 0 0)) readyState zeroPad).2.stick2_x
      = cdiv 20000 409) ∧
    (controller_sdl_read false sampleFlags (sampleSettings 512 512 false false)
        (sampleHost noButtons (axes 0 0 20000 0 0 0)) readyState zeroPad).2
      = { zeroPad with button := sampleFlags.R_CBUTTONS } ∧
    (controller_sdl_read false sampleFlags (sampleSettings 512 512 true false)
        (sampleHost noButtons (axes 0 0 20000 0 0 0)) readyState zeroPad).2
      = { zeroPad with stick2_x := 48 } :=
  ⟨((right_stick_x_camera_toggle false sampleFlags (sampleSettings 512 512 false false)
      (sampleHost noButtons (axes 0 0 20000 0 0 0)) readyState zeroPad 7 20000
      rfl (by decide) (fun _ => rfl) rfl (by decide) (by decide)).1 rfl).2.2,
   ((right_stick_x_camera_toggle false sampleFlags (sampleSettings 512 512 true false)
      (sampleHost noButtons (axes 0 0 20000 0 0 0)) readyState zeroPad 7 20000
      rfl (by decide) (fun _ => rfl) rfl (by decide) (by decide)).2 rfl (by decide)).1,
   by decide, by decide⟩

/-- Claim C6, as stated, fails, with both camera toggles on and right deadzone
512 (threshold `5120^2 = 26214400`). Readings `(4000, 4000)` have squared
magnitude `32000000` above the threshold, yet nothing is written, since each
axis is tested on its own. Readings `(0, 8000)` give `stick2_y = 19`, not the
sign-inverted `-19`. -/
theorem right_stick_policy_counterexample :
    ((4000 : Int) * 4000 + 4000 * 4000 > ((512 : Int) * 10) ^ 2 ∧
      (controller_sdl_read false sampleFlags (sampleSettings 512 512 true true)
          (sampleHost noButtons (axes 0 0 4000 4000 0 0)) readyState zeroPad).2.stick2_x = 0 ∧
      (controller_sdl_read false sampleFlags (sampleSettings 512 512 true true)
          (sampleHost noButtons (axes 0 0 4000 4000 0 0)) readyState zeroPad).2.stick2_y = 0 ∧
      cdiv 4000 409 = 9 ∧ cdiv (-4000) 409 = -9) ∧
    ((0 : Int) * 0 + 8000 * 8000 > ((512 : Int) * 10) ^ 2 ∧
      (controller_sdl_read false sampleFlags (sampleSettings 512 512 true true)
          (sampleHost noButtons (axes 0 0 0 8000 0 0)) readyState zeroPad).2.stick2_y = 19 ∧
      cdiv (-8000) 409 = -19) := by
  decide

/-- Claim C6, amended: with a bound device `c` and both camera toggles on, each
right-stick axis is tested on its own against the right deadzone threshold
`T = (rd*10)^2 mod 2^32`: `stick2_x` is `rx/409` when `rx*rx > T` and its prior
value otherwise; `stick2_y` is `ry/409`, without sign inversion, when
`ry*ry > T` and its prior value otherwise, `ry` being the reading after the web
correction. -/
theorem right_stick_per_axis_deadzone (web : Bool) (k : ContFlags) (cfg : Settings)
    (h : Host) (s : AdapterState) (pad : OSContPad) (c : Nat) (rx ry : Int)
    (hinit : s.init_ok = true) (hb : (bindDevice h s).sdl_cntrl = some c)
    (himp : cfg.gImprovedCamera = true) (hvert : cfg.gVerticalCamera = true)
    (hrx : h.getAxis c .RIGHTX = rx) (hry : h.getAxis c .RIGHTY = ry)
    (hxlo : -32768 ≤ rx) (hxhi : rx ≤ 32767) (hylo : -32768 ≤ ry) (hyhi : ry ≤ 32767) :
    (controller_sdl_read web k cfg h s pad).2.stick2_x =
      (if rx * rx >
          ((((cfg.gControllerRightDeadzone * 10) * (cfg.gControllerRightDeadzone * 10))
            % 4294967296 : Nat) : Int)
        then cdiv rx 409 else pad.stick2_x) ∧
    (controller_sdl_read web k cfg h s pad).2.stick2_y =
      (if fixY web ry * fixY web ry >
          ((((cfg.gControllerRightDeadzone * 10) * (cfg.gControllerRightDeadzone * 10))
            % 4294967296 : Nat) : Int)
        then cdiv (fixY web ry) 409 else pad.stick2_y) := by
  rw [read_bound_stick2_x web k cfg h s pad hinit hb hrx hxlo hxhi,
    read_bound_stick2_y web k cfg h s pad hinit hb hry hylo hyhi]
  simp only [himp, hvert, true_and]

/-- A poll with both toggles on, right deadzone 512 and right-stick readings
`(6000, 4000)`: X is beyond the threshold and written as `6000/409 = 14`, Y is
not and keeps its prior value. -/
theorem right_stick_per_axis_deadzone_witness :
    (controller_sdl_read false sampleFlags (sampleSettings 512 512 true true)
        (sampleHost noButtons (axes 0 0 6000 4000 0 0)) readyState zeroPad).2.stick2_x = 14 ∧
    (controller_sdl_read false sampleFlags (sampleSettings 512 512 true true)
        (sampleHost noButtons (axes 0 0 6000 4000 0 0)) readyState zeroPad).2.stick2_y
      = zeroPad.stick2_y := by
  have hres := right_stick_per_axis_deadzone false sampleFlags (sampleSettings 512 512 true true)
    (sampleHost noButtons (axes 0 0 6000 4000 0 0)) readyState zeroPad 7 6000 4000
    rfl (by decide) rfl rfl rfl rfl (by decide) (by decide) (by decide) (by decide)
  refine ⟨hres.1.trans (by decide), hres.2.trans (by decide)⟩

/-! ## Buttons and triggers -/

/-- Claim C7: with a bound device `c`, a zeroed pad record and all six axes
reading 0, whatever the deadzones and camera toggles, the button mask after the
poll is the bitwise OR of the flags mapped to the pressed buttons (as stored in
the 16-bit mask: exactly that OR when it fits 16 bits) and the four stick
components remain 0; when only DPAD_UP is pressed the mask is `U_JPAD`. -/
theorem buttons_only_poll (web : Bool) (k : ContFlags) (cfg : Settings) (h : Host)
    (s : AdapterState) (c : Nat)
    (hinit : s.init_ok = true) (hb : (bindDevice h s).sdl_cntrl = some c)
    (hax : ∀ a, h.getAxis c a = 0) :
    (controller_sdl_read web k cfg h s zeroPad).2.button = buttonFlags k cfg h c % 65536 ∧
    (buttonFlags k cfg h c < 65536 →
      (controller_sdl_read web k cfg h s zeroPad).2.button = buttonFlags k cfg h c) ∧
    (controller_sdl_read web k cfg h s zeroPad).2.stick_x = 0 ∧
    (controller_sdl_read web k cfg h s zeroPad).2.stick_y = 0 ∧
    (controller_sdl_read web k cfg h s zeroPad).2.stick2_x = 0 ∧
    (controller_sdl_read web k cfg h s zeroPad).2.stick2_y = 0 ∧
    ((∀ b, h.getButton c b = true ↔ b = .DPAD_UP) →
      (controller_sdl_read web k cfg h s zeroPad).2.button = k.U_JPAD % 65536 ∧
      (k.U_JPAD < 65536 → (controller_sdl_read web k cfg h s zeroPad).2.button = k.U_JPAD)) := by
  have hbtn : (controller_sdl_read web k cfg h s zeroPad).2.button
      = buttonFlags k cfg h c % 65536 := by
    apply eq_mod_of_testBit
    · rw [read_bound_pad web k cfg h s zeroPad hinit hb]
      exact mapInputs_button_lt web k cfg h c zeroPad (by decide)
    · intro i hi
      rw [read_bound_button_testBit web k cfg h s zeroPad hinit hb hi]
      simp [hax, fixY_zero, rightXFlags, rightYFlags, leftTriggerFlag, rightTriggerFlag, flagIf,
        zeroPad]
  refine ⟨hbtn, ?_, ?_, ?_, ?_, ?_, ?_⟩
  · intro hfit
    rw [hbtn, Nat.mod_eq_of_lt hfit]
  · rw [read_bound_pad web k cfg h s zeroPad hinit hb, mapInputs_stick_x]
    simp [hax, fixY_zero, toU32_zero, zeroPad]
  · rw [read_bound_pad web k cfg h s zeroPad hinit hb, mapInputs_stick_y]
    simp [hax, fixY_zero, toU32_zero, zeroPad]
  · rw [read_bound_pad web k cfg h s zeroPad hinit hb, mapInputs_stick2_x]
    simp [hax, toU32_zero, zeroPad]
  · rw [read_bound_pad web k cfg h s zeroPad hinit hb, mapInputs_stick2_y]
    simp [hax, fixY_zero, toU32_zero, zeroPad]
  · intro honly
    have hflags : buttonFlags k cfg h c = k.U_JPAD := by
      simp [buttonFlags, flagIf, honly]
    rw [hbtn, hflags]
    exact ⟨rfl, fun hfit => Nat.mod_eq_of_lt hfit⟩

/-- A poll from a zeroed pad with all axes at 0 and only DPAD_UP pressed: the
pad record afterwards is zero except for the mask, which is `U_JPAD`. -/
theorem buttons_only_poll_witness :
    (controller_sdl_read false sampleFlags (sampleSettings 512 512 false false)
        (sampleHost (fun b => decide (b = .DPAD_UP)) (axes 0 0 0 0 0 0)) readyState zeroPad).2
      = { zeroPad with button := sampleFlags.U_JPAD } ∧
    (controller_sdl_read false sampleFlags (sampleSettings 512 512 false false)
        (sampleHost (fun b => decide (b = .DPAD_UP)) (axes 0 0 0 0 0 0)) readyState
        zeroPad).2.button = sampleFlags.U_JPAD :=
  ⟨by decide,
   ((buttons_only_poll false sampleFlags (sampleSettings 512 512 false false)
      (sampleHost (fun b => decide (b = .DPAD_UP)) (axes 0 0 0 0 0 0)) readyState 7
      rfl (by decide) (fun a => by cases a <;> rfl)).2.2.2.2.2.2
      (fun b => by cases b <;> simp [sampleHost])).2 (by decide)⟩

/-- Claim C10: with a bound device `c`, a trigger reading `t > 30*256 = 7680`
sets every bit of the flag of that trigger (`configButtonZL` for the left one,
`configButtonZR` for the right) in the mask; a reading `t ≤ 7680` leaves every
bit of that flag as it was, when no other input of the poll maps to such a bit. -/
theorem trigger_threshold (web : Bool) (k : ContFlags) (cfg : Settings) (h : Host)
    (s : AdapterState) (pad : OSContPad) (c : Nat) (t : Int)
    (hinit : s.init_ok = true) (hb : (bindDevice h s).sdl_cntrl = some c) :
    (h.getAxis c .TRIGGERLEFT = t →
      (t > 30 * 256 → ∀ i : Nat, i < 16 → cfg.configButtonZL.testBit i = true →
        (controller_sdl_read web k cfg h s pad).2.button.testBit i = true) ∧
      (t ≤ 30 * 256 →
        (∀ i : Nat, i < 16 → cfg.configButtonZL.testBit i = true →
          (buttonFlags k cfg h c
            ||| rightXFlags k cfg (h.getAxis c .RIGHTX)
            ||| rightYFlags k cfg (fixY web (h.getAxis c .RIGHTY))
            ||| rightTriggerFlag cfg (h.getAxis c .TRIGGERRIGHT)).testBit i = false) →
        ∀ i : Nat, i < 16 → cfg.configButtonZL.testBit i = true →
          (controller_sdl_read web k cfg h s pad).2.button.testBit i
            = pad.button.testBit i)) ∧
    (h.getAxis c .TRIGGERRIGHT = t →
      (t > 30 * 256 → ∀ i : Nat, i < 16 → cfg.configButtonZR.testBit i = true →
        (controller_sdl_read web k cfg h s pad).2.button.testBit i = true) ∧
      (t ≤ 30 * 256 →
        (∀ i : Nat, i < 16 → cfg.configButtonZR.testBit i = true →
          (buttonFlags k cfg h c
            ||| rightXFlags k cfg (h.getAxis c .RIGHTX)
            ||| rightYFlags k cfg (fixY web (h.getAxis c .RIGHTY))
            ||| leftTriggerFlag cfg (h.getAxis c .TRIGGERLEFT)).testBit i = false) →
        ∀ i : Nat, i < 16 → cfg.configButtonZR.testBit i = true →
          (controller_sdl_read web k cfg h s pad).2.button.testBit i
            = pad.button.testBit i)) := by
  constructor
  · intro ht
    constructor
    · intro hgt i hi hbit
      have hgt2 : (7680 : Int) < t := by omega
      rw [read_bound_button_testBit web k cfg h s pad hinit hb hi, ht]
      simp [leftTriggerFlag, flagIf, hgt2, hbit]
    · intro hle hother i hi hbit
      have ho := hother i hi hbit
      simp only [Nat.testBit_or, Bool.or_eq_false_iff] at ho
      have hng : ¬ ((7680 : Int) < t) := by omega
      rw [read_bound_button_testBit web k cfg h s pad hinit hb hi, ht, ho.1.1.1, ho.1.1.2,
        ho.1.2, ho.2]
      simp [leftTriggerFlag, flagIf, hng]
  · intro ht
    constructor
    · intro hgt i hi hbit
      have hgt2 : (7680 : Int) < t := by omega
      rw [read_bound_button_testBit web k cfg h s pad hinit hb hi, ht]
      simp [rightTriggerFlag, flagIf, hgt2, hbit]
    · intro hle hother i hi hbit
      have ho := hother i hi hbit
      simp only [Nat.testBit_or, Bool.or_eq_false_iff] at ho
      have hng : ¬ ((7680 : Int) < t) := by omega
      rw [read_bound_button_testBit web k cfg h s pad hinit hb hi, ht, ho.1.1.1, ho.1.1.2,
        ho.1.2, ho.2]
      simp [rightTriggerFlag, flagIf, hng]

/-- Polls with nothing active but the left trigger: a reading of 7681 sets the
bit of `configButtonZL` (bit 13 in the sample settings), a reading of 7680
leaves it as it was. -/
theorem trigger_threshold_witness :
    ((controller_sdl_read false sampleFlags (sampleSettings 512 512 false false)
        (sampleHost noButtons (axes 0 0 0 0 7681 0)) readyState zeroPad).2.button.testBit 13
      = true) ∧
    ((controller_sdl_read false sampleFlags (sampleSettings 512 512 false false)
        (sampleHost noButtons (axes 0 0 0 0 7680 0)) readyState zeroPad).2.button.testBit 13
      = zeroPad.button.testBit 13) :=
  ⟨((trigger_threshold false sampleFlags (sampleSettings 512 512 false false)
      (sampleHost noButtons (axes 0 0 0 0 7681 0)) readyState zeroPad 7 7681
      rfl (by decide)).1 rfl).1 (by decide) 13 (by decide) (by decide),
   ((trigger_threshold false sampleFlags (sampleSettings 512 512 false false)
      (sampleHost noButtons (axes 0 0 0 0 7680 0)) readyState zeroPad 7 7680
      rfl (by decide)).1 rfl).2 (by decide) (by decide) 13 (by decide) (by decide)⟩

/-! ## The device and haptic handles -/

theorem searchFrom_haptic (h : Host) :
    ∀ (n : Nat) (s : AdapterState) (i : Nat), s.sdl_haptic = none →
      (searchFrom h s n i).sdl_haptic ≠ none → (searchFrom h s n i).sdl_cntrl ≠ none := by
  intro n
  induction n with
  | zero =>
    intro s i hs hne
    exact absurd hs hne
  | succ n ih =>
    intro s i hs
    simp only [searchFrom]
    split
    · split
      · rename_i hopen
        intro _
        exact hopen
      · exact ih _ (i + 1) hs
    · exact ih s (i + 1) hs

theorem releaseDetached_haptic (h : Host) (s : AdapterState)
    (hs : s.sdl_haptic ≠ none → s.sdl_cntrl ≠ none) :
    (releaseDetached h s).sdl_haptic ≠ none → (releaseDetached h s).sdl_cntrl ≠ none := by
  unfold releaseDetached
  split
  · split
    · intro hne; exact absurd rfl hne
    · exact hs
  · exact hs

theorem bindDevice_haptic (h : Host) (s : AdapterState)
    (hs : s.sdl_haptic ≠ none → s.sdl_cntrl ≠ none) :
    (bindDevice h s).sdl_haptic ≠ none → (bindDevice h s).sdl_cntrl ≠ none := by
  have h1 := releaseDetached_haptic h s hs
  unfold bindDevice
  simp only []
  split
  · rename_i hnone
    have hhap : (releaseDetached h s).sdl_haptic = none := by
      by_contra hne
      exact h1 hne hnone
    exact searchFrom_haptic h _ _ 0 hhap
  · exact h1

theorem read_state (web : Bool) (k : ContFlags) (cfg : Settings) (h : Host)
    (s : AdapterState) (pad : OSContPad) :
    (controller_sdl_read web k cfg h s pad).1 = if s.init_ok then bindDevice h s else s := by
  cases hinit : s.init_ok with
  | false => rw [read_not_ready web k cfg h s pad hinit]; rfl
  | true =>
    cases hb : (bindDevice h s).sdl_cntrl with
    | none => rw [read_unbound web k cfg h s pad hinit hb]; rfl
    | some c => rw [read_bound web k cfg h s pad hinit hb]; rfl

theorem step_haptic (s : AdapterState) (call : Call)
    (hs : s.sdl_haptic ≠ none → s.sdl_cntrl ≠ none) :
    (step s call).sdl_haptic ≠ none → (step s call).sdl_cntrl ≠ none := by
  cases call with
  | init sdlInit hapticInit =>
    simp only [step, controller_sdl_init]
    split
    · exact hs
    · exact hs
  | read web k cfg h pad =>
    simp only [step, read_state]
    split
    · exact bindDevice_haptic h s hs
    · exact hs
  | rumble_play => exact hs
  | rumble_stop => exact hs

theorem foldl_step_haptic (calls : List Call) :
    ∀ s : AdapterState, (s.sdl_haptic ≠ none → s.sdl_cntrl ≠ none) →
      (calls.foldl step s).sdl_haptic ≠ none → (calls.foldl step s).sdl_cntrl ≠ none := by
  induction calls with
  | nil => intro s hs; exact hs
  | cons call rest ih =>
    intro s hs
    exact ih (step s call) (step_haptic s call hs)

theorem searchFrom_no_device (h : Host) :
    ∀ (n : Nat) (s : AdapterState) (i : Nat), s.sdl_cntrl = none →
      (∀ j, i ≤ j → j < i + n → h.isGameController j = true → h.gameControllerOpen j = none) →
      searchFrom h s n i = s := by
  intro n
  induction n with
  | zero => intro s i _ _; rfl
  | succ n ih =>
    intro s i hs hno
    have hrest : ∀ j, i + 1 ≤ j → j < i + 1 + n → h.isGameController j = true →
        h.gameControllerOpen j = none := fun j h1 h2 => hno j (by omega) (by omega)
    simp only [searchFrom]
    split
    · rename_i hgc
      have hopen := hno i (le_refl i) (by omega) hgc
      have hsame : ({ s with sdl_cntrl := h.gameControllerOpen i } : AdapterState) = s := by
        rw [hopen, ← hs]
      rw [hsame]
      simp only [hopen, ne_eq, not_true_eq_false, if_false]
      exact ih s (i + 1) hs hrest
    · exact ih s (i + 1) hs hrest

/-- Claim C8: after any sequence of calls of `controller_sdl_init`,
`controller_sdl_read`, `controller_sdl_rumble_play` and
`controller_sdl_rumble_stop` from the initial state, whatever the library
answers, a non-null `sdl_haptic` comes with a non-null `sdl_cntrl`. -/
theorem haptic_handle_implies_device_handle (calls : List Call) :
    (run calls).sdl_haptic ≠ none → (run calls).sdl_cntrl ≠ none := by
  unfold run
  exact foldl_step_haptic calls initialState (fun hne => absurd rfl hne)

/-- A sequence of calls that ends with a haptic handle: initialisation, a poll
that binds device 7 with haptic handle 9, then a rumble call. -/
theorem haptic_handle_implies_device_handle_witness :
    (run [.init 0 0,
          .read false sampleFlags (sampleSettings 512 512 false false)
            (sampleHost noButtons (axes 0 0 0 0 0 0)) zeroPad,
          .rumble_play]).sdl_haptic = some 9 ∧
    (run [.init 0 0,
          .read false sampleFlags (sampleSettings 512 512 false false)
            (sampleHost noButtons (axes 0 0 0 0 0 0)) zeroPad,
          .rumble_play]).sdl_cntrl ≠ none :=
  ⟨by decide,
   haptic_handle_implies_device_handle
     [.init 0 0,
      .read false sampleFlags (sampleSettings 512 512 false false)
        (sampleHost noButtons (axes 0 0 0 0 0 0)) zeroPad,
      .rumble_play] (by decide)⟩

/-- Claim C9: the poll leaves the pad record as it was whenever no device is
bound at the end of the search step. When `init_ok` is false the poll returns
the state and the pad record unchanged. When `init_ok` is true and `sdl_cntrl`
is null after the poll, the pad record is unchanged. In particular, when no
device is bound (or the bound one is detached) and no enumerated joystick is
both recognised as a game controller and opened, `sdl_cntrl` is null after the
poll and the pad record is unchanged. -/
theorem read_without_device (web : Bool) (k : ContFlags) (cfg : Settings) (h : Host)
    (s : AdapterState) (pad : OSContPad) :
    (s.init_ok = false → controller_sdl_read web k cfg h s pad = (s, pad)) ∧
    (s.init_ok = true → (controller_sdl_read web k cfg h s pad).1.sdl_cntrl = none →
      (controller_sdl_read web k cfg h s pad).2 = pad) ∧
    (s.init_ok = true → (∀ c, s.sdl_cntrl = some c → h.getAttached c = false) →
      (∀ j : Nat, (j : Int) < h.numJoysticks → h.isGameController j = true →
        h.gameControllerOpen j = none) →
      (controller_sdl_read web k cfg h s pad).1.sdl_cntrl = none ∧
      (controller_sdl_read web k cfg h s pad).2 = pad) := by
  refine ⟨read_not_ready web k cfg h s pad, ?_, ?_⟩
  · intro hinit hnone
    rw [read_state, hinit] at hnone
    rw [read_unbound web k cfg h s pad hinit hnone]
  · intro hinit hdet hno
    have hrel : (releaseDetached h s).sdl_cntrl = none := by
      unfold releaseDetached
      split
      · rename_i c hc
        rw [hdet c hc]; rfl
      · rename_i hc
        exact hc
    have hbind : (bindDevice h s).sdl_cntrl = none := by
      unfold bindDevice
      simp only [hrel, if_true]
      rw [searchFrom_no_device h _ _ 0 hrel (fun j _ hj => hno j (by omega))]
      exact hrel
    rw [read_unbound web k cfg h s pad hinit hbind]
    exact ⟨hbind, rfl⟩

/-- Two polls without a device: one before initialisation, one by a ready
adapter while the library enumerates two joysticks that are not game
controllers. Both return the pad record they were given. -/
theorem read_without_device_witness :
    (controller_sdl_read false sampleFlags (sampleSettings 512 512 false false)
        (sampleHost (fun _ => true) (axes 9000 9000 9000 9000 9000 9000)) initialState
        { zeroPad with button := 5, stick_x := 3 }
      = (initialState, { zeroPad with button := 5, stick_x := 3 })) ∧
    ((controller_sdl_read false sampleFlags (sampleSettings 512 512 false false)
        emptyHost readyState { zeroPad with button := 5, stick_x := 3 }).1.sdl_cntrl = none ∧
     (controller_sdl_read false sampleFlags (sampleSettings 512 512 false false)
        emptyHost readyState { zeroPad with button := 5, stick_x := 3 }).2
      = { zeroPad with button := 5, stick_x := 3 }) :=
  ⟨(read_without_device false sampleFlags (sampleSettings 512 512 false false)
      (sampleHost (fun _ => true) (axes 9000 9000 9000 9000 9000 9000)) initialState
      { zeroPad with button := 5, stick_x := 3 }).1 rfl,
   (read_without_device false sampleFlags (sampleSettings 512 512 false false)
      emptyHost readyState { zeroPad with button := 5, stick_x := 3 }).2.2 rfl
      (fun c hc => by cases hc) (fun _ _ hgc => by cases hgc)⟩

end ControllerSDL2
